import Mathlib

/-!
Verification of the Dyce contract decision engine.

The repository contains two variants of the decision engine, in
`src/Credit17.py` and `src/credit4.py`.  Each variant is shallowly embedded
below as a pure Lean function over an application record and the reference
tier table; currency and energy quantities are modelled as rationals,
yes/no radio inputs as booleans, and the three mutable locals
(`decision`/`recommendation`, `approver`, `reasons`) as explicitly threaded
state.  All theorems about the claims come after the definitions.
-/

namespace Credit

/-- Row of the approval matrix: ceilings on sites, spend and volume, and the
role that may approve contracts under those ceilings.  Rows are scanned in
table order, first match wins. -/
structure Tier where
  maxSites : ℕ
  maxSpend : ℚ
  maxVolume : ℚ
  role : String
  deriving DecidableEq, Repr

namespace Credit17

/-- Input record for `src/Credit17.py`: the form fields read by
`run_decision`.  The SMET and CCJ radios are two-valued, hence booleans
(true means the "Yes" answer). -/
structure App where
  creditsafeScore : ℕ
  recommendedLimit : ℚ
  yearsTrading : ℕ
  smetCompatible : Bool
  hasCCJs : Bool
  paymentTerms : String
  contractValue : ℚ
  annualVolume : ℚ
  contractTerm : ℕ
  numberOfSites : ℕ
  unitMargin : ℚ
  upliftStanding : ℚ
  upliftUnit : ℚ
  sicRisk : String
  deriving DecidableEq, Repr

/-- Result triple of `run_decision` in `src/Credit17.py`. -/
structure Outcome where
  decision : String
  approver : Option String
  reasons : List String
  deriving DecidableEq, Repr

/-- Exposure estimate computed at the top of `run_decision`:
`contract_value / contract_term / 4`. -/
def three_month_exposure (a : App) : ℚ :=
  a.contractValue / (a.contractTerm : ℚ) / 4

/-- Embedding of `get_required_approver` from `src/Credit17.py`: scan the
`Limits` rows in order and return the role of the first row whose three
ceilings all dominate; fall back to "Managing Director". -/
def get_required_approver (limits : List Tier) (sites : ℕ) (spend volume : ℚ) : String :=
  match limits with
  | [] => "Managing Director"
  | row :: rest =>
      if sites ≤ row.maxSites ∧ spend ≤ row.maxSpend ∧ volume ≤ row.maxVolume then
        row.role
      else
        get_required_approver rest sites spend volume

/-- Index of the first matching row of the tier table (the table length when
no row matches, i.e. the "Managing Director" fallback, which the spec ranks
most senior). -/
def approverIdx (limits : List Tier) (sites : ℕ) (spend volume : ℚ) : ℕ :=
  match limits with
  | [] => 0
  | row :: rest =>
      if sites ≤ row.maxSites ∧ spend ≤ row.maxSpend ∧ volume ≤ row.maxVolume then
        0
      else
        approverIdx rest sites spend volume + 1

/-- First phase of `run_decision` in `src/Credit17.py` (lines 107-123): the
three hard-decline checks, which each set the decision to "Declined" and
append their reason, followed by the low-score/SMET-compatible carve-out,
which only appends its informational reason. -/
def declinePhase (a : App) : String × List String :=
  let d0 : String × List String := ("Approved", [])
  let d1 :=
    if a.creditsafeScore < 30 ∧ a.smetCompatible = false then
      ("Declined", d0.2 ++ ["Declined: Credit score below 30 and meter not SMET-compatible."])
    else d0
  let d2 :=
    if a.hasCCJs = true then
      ("Declined", d1.2 ++ ["Declined: CCJs/defaults present."])
    else d1
  let d3 :=
    if three_month_exposure a > a.recommendedLimit then
      ("Declined", d2.2 ++ ["Declined: 3-month exposure exceeds recommended limit."])
    else d2
  if a.creditsafeScore < 30 ∧ a.smetCompatible = true then
    (d3.1, d3.2 ++ ["Customer is only eligible with Yu Energy due to SMET compatibility and low score."])
  else d3

/-- Referral reasons appended inside the `decision != "Declined"` block of
`run_decision` in `src/Credit17.py` (lines 126-139), in source order.  Note
that the source appends reasons only; it never changes `decision` here. -/
def referralReasons (a : App) : List String :=
  (if a.creditsafeScore < 60 then ["Referral: Low credit score."] else [])
    ++ (if a.sicRisk = "High" ∨ a.sicRisk = "Very High" then ["Referral: High sector risk."] else [])
    ++ (if a.paymentTerms ≠ "7 Days Direct Debit" then ["Referral: Non-standard payment terms."] else [])
    ++ (if a.unitMargin < 1/2 then ["Referral: Unit margin below minimum."] else [])
    ++ (if a.upliftStanding > 5 then ["Referral: Standing uplift too high."] else [])
    ++ (if a.upliftUnit > 1 then ["Referral: Unit rate uplift too high."] else [])
    ++ (if a.yearsTrading < 1 then ["Referral: Insufficient trading history."] else [])

/-- Embedding of `run_decision` from `src/Credit17.py`: decline phase, then,
when not declined, the referral reasons and the approver lookup; the
returned approver is `none` exactly on the declined path. -/
def run_decision (limits : List Tier) (a : App) : Outcome :=
  let p := declinePhase a
  if p.1 ≠ "Declined" then
    { decision := p.1
      approver := some (get_required_approver limits a.numberOfSites a.contractValue a.annualVolume)
      reasons := p.2 ++ referralReasons a }
  else
    { decision := p.1, approver := none, reasons := p.2 }

/-- Disjunction of the three hard-decline conditions of `src/Credit17.py`. -/
def declines (a : App) : Prop :=
  (a.creditsafeScore < 30 ∧ a.smetCompatible = false)
    ∨ a.hasCCJs = true
    ∨ three_month_exposure a > a.recommendedLimit

instance (a : App) : Decidable (declines a) :=
  decidable_of_iff
    ((a.creditsafeScore < 30 ∧ a.smetCompatible = false)
      ∨ a.hasCCJs = true
      ∨ three_month_exposure a > a.recommendedLimit) Iff.rfl

end Credit17

namespace Credit4

/-- Input record for `src/credit4.py`: the form fields read by its
`run_decision`. -/
structure App where
  businessType : String
  yearsTrading : ℕ
  creditScore : ℕ
  smetCompatible : Bool
  paymentTerms : String
  numberOfSites : ℕ
  annualVolume : ℚ
  contractValue : ℚ
  contractTerm : ℕ
  unitMargin : ℚ
  sicRisk : String
  deriving DecidableEq, Repr

/-- Sidebar configuration of `src/credit4.py` (defaults 80 / 60 / 0.5); the
`Max Payment Terms (Days)` input is read but never used by `run_decision`. -/
structure Config where
  approveThreshold : ℕ
  referThreshold : ℕ
  minUnitMargin : ℚ
  deriving DecidableEq, Repr

/-- Default sidebar configuration of `src/credit4.py`. -/
def defaultConfig : Config := { approveThreshold := 80, referThreshold := 60, minUnitMargin := 1/2 }

/-- Result of `run_decision` in `src/credit4.py`, minus the timestamp. -/
structure Outcome where
  recommendation : String
  approver : Option String
  reasons : List String
  exposureEstimate : ℚ
  exposurePassed : Bool
  deriving DecidableEq, Repr

/-- First statement group of `run_decision` in `src/credit4.py` (lines
86-98): the score-based decline / Yu-Energy carve-out / referral band. -/
def scorePhase (cfg : Config) (a : App) : String × List String :=
  if a.creditScore < cfg.referThreshold then
    if a.creditScore < 30 ∧ a.smetCompatible = true then
      ("Approved with Yu Energy Only",
        ["Credit Score <30: Only Yu Energy permitted due to SMET compatibility"])
    else
      ("Declined", ["Credit Score below minimum threshold"])
  else if cfg.referThreshold ≤ a.creditScore ∧ a.creditScore < cfg.approveThreshold then
    ("Refer", ["Credit Score requires referral"])
  else
    ("Approved", [])

/-- Referral checks of `run_decision` in `src/credit4.py` (lines 100-117),
continued from state `s0`.  Each check unconditionally overwrites the
recommendation with "Refer" when it fires — including over "Declined" or
"Approved with Yu Energy Only" set by the score phase. -/
def referChecks (cfg : Config) (a : App) (s0 : String × List String) : String × List String :=
  let s1 :=
    if a.businessType ≠ "Limited Company" ∧ a.yearsTrading < 1 then
      ("Refer", s0.2 ++ ["Insufficient trading history for Sole Trader/Partnership"])
    else if a.businessType = "Limited Company" ∧ a.yearsTrading < 2 then
      ("Refer", s0.2 ++ ["Insufficient trading history for Limited Company"])
    else s0
  let s2 :=
    if a.paymentTerms ≠ "14 Days DD" ∧ a.paymentTerms ≠ "14 Days BACS" then
      ("Refer", s1.2 ++ ["Payment terms exceed acceptable"])
    else s1
  let s3 :=
    if a.sicRisk = "High" ∨ a.sicRisk = "Very High" then
      ("Refer", s2.2 ++ ["SIC Risk too high"])
    else s2
  if a.unitMargin < cfg.minUnitMargin then
    ("Refer", s3.2 ++ ["Margin below minimum allowed"])
  else s3

/-- Final statement group of `run_decision` in `src/credit4.py` (lines
132-137): the Yu-Energy path overrides the approver, the declined path
clears it, and a Managing-Director approver appends an escalation reason. -/
def finalize (tierApprover : String) (exposureEstimate : ℚ) (exposurePassed : Bool)
    (s : String × List String) : Outcome :=
  if s.1 = "Approved with Yu Energy Only" then
    { recommendation := s.1, approver := some "Yu Energy Only", reasons := s.2,
      exposureEstimate := exposureEstimate, exposurePassed := exposurePassed }
  else if s.1 = "Declined" then
    { recommendation := s.1, approver := none, reasons := s.2,
      exposureEstimate := exposureEstimate, exposurePassed := exposurePassed }
  else if tierApprover = "Managing Director" then
    { recommendation := s.1, approver := some tierApprover,
      reasons := s.2 ++ ["Approval by Managing Director required – please email PDF report to md@dyceenergy.com"],
      exposureEstimate := exposureEstimate, exposurePassed := exposurePassed }
  else
    { recommendation := s.1, approver := some tierApprover, reasons := s.2,
      exposureEstimate := exposureEstimate, exposurePassed := exposurePassed }

/-- Embedding of `run_decision` from `src/credit4.py` (timestamp omitted).
The in-line scan of `matrix_df` — `approver = "Managing Director"`, then the
first row whose ceilings dominate wins via `break` — has exactly the
first-match-or-fallback semantics of `Credit17.get_required_approver`, which
is reused here for it. -/
def run_decision (matrix : List Tier) (cfg : Config) (a : App) : Outcome :=
  let s := referChecks cfg a (scorePhase cfg a)
  let exposureEstimate := a.contractValue / (a.contractTerm : ℚ) / 4
  let exposurePassed := decide (exposureEstimate ≤ a.contractValue)
  let tierApprover :=
    Credit17.get_required_approver matrix a.numberOfSites a.contractValue a.annualVolume
  finalize tierApprover exposureEstimate exposurePassed s

/-- Verdict, approver and reasons of `src/credit4.py` recomputed without the
exposure fields; used to state that the exposure computation does not feed
into them. -/
def decision_core (matrix : List Tier) (cfg : Config) (a : App) :
    String × Option String × List String :=
  let s := referChecks cfg a (scorePhase cfg a)
  let tierApprover :=
    Credit17.get_required_approver matrix a.numberOfSites a.contractValue a.annualVolume
  let o := finalize tierApprover 0 true s
  (o.recommendation, o.approver, o.reasons)

end Credit4

end Credit

namespace Credit

/-- Boolean form of the tier-matching test, for stating the first-match
semantics via `List.find?`. -/
def tierMatch (sites : ℕ) (spend volume : ℚ) (t : Tier) : Bool :=
  decide (sites ≤ t.maxSites) && decide (spend ≤ t.maxSpend) && decide (volume ≤ t.maxVolume)

/-- Credit17 application with credit score 50 and every other rule clean:
exercises the low-credit-score referral check. -/
def exApp17low : Credit17.App :=
  { creditsafeScore := 50, recommendedLimit := 0, yearsTrading := 5,
    smetCompatible := true, hasCCJs := false, paymentTerms := "7 Days Direct Debit",
    contractValue := 0, annualVolume := 0, contractTerm := 1, numberOfSites := 1,
    unitMargin := 1, upliftStanding := 0, upliftUnit := 0, sicRisk := "Medium" }

/-- credit4 application with credit score 20, an incompatible meter and a
zero-years sole trader: the score-based decline followed by the
trading-history referral override. -/
def exApp4decl : Credit4.App :=
  { businessType := "Sole Trader", yearsTrading := 0, creditScore := 20,
    smetCompatible := false, paymentTerms := "14 Days DD", numberOfSites := 1,
    annualVolume := 0, contractValue := 0, contractTerm := 1, unitMargin := 1,
    sicRisk := "Medium" }

/-- credit4 application with credit score 20, a compatible meter and a
zero-years sole trader: the Yu-Energy carve-out followed by the
trading-history referral override. -/
def exApp4yu : Credit4.App :=
  { businessType := "Sole Trader", yearsTrading := 0, creditScore := 20,
    smetCompatible := true, paymentTerms := "14 Days DD", numberOfSites := 1,
    annualVolume := 0, contractValue := 0, contractTerm := 1, unitMargin := 1,
    sicRisk := "Medium" }

/-- Credit17 application on the carve-out path: credit score 20, compatible
meter, no CCJs, exposure within the limit. -/
def exApp17yu : Credit17.App :=
  { creditsafeScore := 20, recommendedLimit := 0, yearsTrading := 5,
    smetCompatible := true, hasCCJs := false, paymentTerms := "7 Days Direct Debit",
    contractValue := 0, annualVolume := 0, contractTerm := 1, numberOfSites := 1,
    unitMargin := 1, upliftStanding := 0, upliftUnit := 0, sicRisk := "Medium" }

/-- One-row tier table whose ceilings dominate the zero-valued example
contracts; its role is deliberately not the fallback role. -/
def exTiers : List Tier := [{ maxSites := 10, maxSpend := 0, maxVolume := 0, role := "Credit Controller" }]

/-- credit4 application with credit score 70 (inside the default referral
band) and every other rule clean. -/
def exApp4band : Credit4.App :=
  { businessType := "Limited Company", yearsTrading := 5, creditScore := 70,
    smetCompatible := true, paymentTerms := "14 Days DD", numberOfSites := 1,
    annualVolume := 0, contractValue := 0, contractTerm := 1, unitMargin := 1,
    sicRisk := "Medium" }

/-- Credit17 application that is declined on all three hard-decline rules at
once: score 20 with incompatible meter, CCJs present, exposure 2 above the
limit 1. -/
def exApp17tripleDecl : Credit17.App :=
  { creditsafeScore := 20, recommendedLimit := 1, yearsTrading := 5,
    smetCompatible := false, hasCCJs := true, paymentTerms := "7 Days Direct Debit",
    contractValue := 8, annualVolume := 0, contractTerm := 1, numberOfSites := 1,
    unitMargin := 1, upliftStanding := 0, upliftUnit := 0, sicRisk := "Medium" }

/-- Two-row tier table used to witness monotonicity of the approver
lookup. -/
def exTiersTwo : List Tier :=
  [{ maxSites := 1, maxSpend := 100, maxVolume := 1000, role := "Ops Manager" },
   { maxSites := 5, maxSpend := 10000, maxVolume := 100000, role := "Director" }]

/-- credit4 application matching the worked example of the specification:
score 85, limited company trading 5 years, 14-day direct debit, one site,
contract value 10000 over 2 years, 50000 kWh. -/
def exApp4clean : Credit4.App :=
  { businessType := "Limited Company", yearsTrading := 5, creditScore := 85,
    smetCompatible := true, paymentTerms := "14 Days DD", numberOfSites := 1,
    annualVolume := 50000, contractValue := 10000, contractTerm := 2, unitMargin := 1,
    sicRisk := "Medium" }

/-- Credit17 application matching the worked example of the specification:
score 85, no CCJs, compatible meter, exposure 1250 against limit 5000. -/
def exApp17clean : Credit17.App :=
  { creditsafeScore := 85, recommendedLimit := 5000, yearsTrading := 5,
    smetCompatible := true, hasCCJs := false, paymentTerms := "7 Days Direct Debit",
    contractValue := 10000, annualVolume := 50000, contractTerm := 2, numberOfSites := 1,
    unitMargin := 1, upliftStanding := 0, upliftUnit := 0, sicRisk := "Medium" }

/-- Tier table dominating the worked example's contract size, with a
non-fallback role. -/
def exTiersBig : List Tier :=
  [{ maxSites := 10, maxSpend := 50000, maxVolume := 100000, role := "Credit Controller" }]

end Credit

namespace Credit

namespace Credit17

theorem declinePhase_fst (a : App) :
    (declinePhase a).1 = if declines a then "Declined" else "Approved" := by
  by_cases h1 : a.creditsafeScore < 30 ∧ a.smetCompatible = false
    <;> by_cases h2 : a.hasCCJs = true
    <;> by_cases h3 : three_month_exposure a > a.recommendedLimit
    <;> by_cases h4 : a.creditsafeScore < 30 ∧ a.smetCompatible = true
    <;> simp [declinePhase, declines, h1, h2, h3, h4]

theorem run_decision_decision (L : List Tier) (a : App) :
    (run_decision L a).decision = (declinePhase a).1 := by
  simp only [run_decision]
  split_ifs <;> rfl

theorem run_decision_approver (L : List Tier) (a : App) :
    (run_decision L a).approver =
      if (declinePhase a).1 ≠ "Declined" then
        some (get_required_approver L a.numberOfSites a.contractValue a.annualVolume)
      else none := by
  simp only [run_decision]
  split_ifs <;> rfl

theorem run_decision_reasons (L : List Tier) (a : App) :
    (run_decision L a).reasons =
      (declinePhase a).2
        ++ (if (declinePhase a).1 ≠ "Declined" then referralReasons a else []) := by
  simp only [run_decision]
  split_ifs <;> simp

theorem mem_declinePhase_lowScore (a : App)
    (h : a.creditsafeScore < 30 ∧ a.smetCompatible = false) :
    "Declined: Credit score below 30 and meter not SMET-compatible." ∈ (declinePhase a).2 := by
  simp only [declinePhase]
  split_ifs <;> simp_all

theorem mem_declinePhase_ccj (a : App) (h : a.hasCCJs = true) :
    "Declined: CCJs/defaults present." ∈ (declinePhase a).2 := by
  simp only [declinePhase]
  split_ifs <;> simp_all

theorem mem_declinePhase_exposure (a : App) (h : three_month_exposure a > a.recommendedLimit) :
    "Declined: 3-month exposure exceeds recommended limit." ∈ (declinePhase a).2 := by
  simp only [declinePhase]
  split_ifs <;> simp_all

theorem mem_declinePhase_yu (a : App) (h : a.creditsafeScore < 30 ∧ a.smetCompatible = true) :
    "Customer is only eligible with Yu Energy due to SMET compatibility and low score."
      ∈ (declinePhase a).2 := by
  simp only [declinePhase]
  split_ifs <;> simp_all

theorem declinePhase_snd_nodecline (a : App) (h : ¬ declines a) :
    (declinePhase a).2 =
      if a.creditsafeScore < 30 ∧ a.smetCompatible = true then
        ["Customer is only eligible with Yu Energy due to SMET compatibility and low score."]
      else [] := by
  simp only [declines, not_or] at h
  obtain ⟨h1, h2, h3⟩ := h
  simp only [declinePhase]
  simp [h1, h2, h3]
  split_ifs <;> rfl

theorem referralReasons_empty (a : App)
    (h1 : ¬ a.creditsafeScore < 60)
    (h2 : ¬ (a.sicRisk = "High" ∨ a.sicRisk = "Very High"))
    (h3 : a.paymentTerms = "7 Days Direct Debit")
    (h4 : ¬ a.unitMargin < 1/2)
    (h5 : ¬ a.upliftStanding > 5)
    (h6 : ¬ a.upliftUnit > 1)
    (h7 : ¬ a.yearsTrading < 1) :
    referralReasons a = [] := by
  simp [referralReasons, h1, h2, h3, h5, h6, h7]
  linarith [le_of_not_lt h4]

theorem mem_referralReasons_lowScore (a : App) (h : a.creditsafeScore < 60) :
    "Referral: Low credit score." ∈ referralReasons a := by
  simp [referralReasons, h]

theorem mem_referralReasons_sector (a : App) (h : a.sicRisk = "High" ∨ a.sicRisk = "Very High") :
    "Referral: High sector risk." ∈ referralReasons a := by
  simp [referralReasons, h]

theorem mem_referralReasons_terms (a : App) (h : a.paymentTerms ≠ "7 Days Direct Debit") :
    "Referral: Non-standard payment terms." ∈ referralReasons a := by
  simp [referralReasons, h]

theorem mem_referralReasons_margin (a : App) (h : a.unitMargin < 1/2) :
    "Referral: Unit margin below minimum." ∈ referralReasons a := by
  have h' : a.unitMargin < 2⁻¹ := by linarith
  simp [referralReasons, h']

theorem mem_referralReasons_upliftStanding (a : App) (h : a.upliftStanding > 5) :
    "Referral: Standing uplift too high." ∈ referralReasons a := by
  simp [referralReasons, h]

theorem mem_referralReasons_upliftUnit (a : App) (h : a.upliftUnit > 1) :
    "Referral: Unit rate uplift too high." ∈ referralReasons a := by
  simp [referralReasons, h]

theorem mem_referralReasons_history (a : App) (h : a.yearsTrading < 1) :
    "Referral: Insufficient trading history." ∈ referralReasons a := by
  simp [referralReasons, h]

end Credit17

end Credit

namespace Credit

theorem tierMatch_eq (sites : ℕ) (spend volume : ℚ) (t : Tier) :
    tierMatch sites spend volume t
      = decide (sites ≤ t.maxSites ∧ spend ≤ t.maxSpend ∧ volume ≤ t.maxVolume) := by
  simp [tierMatch, Bool.and_assoc]

theorem get_required_approver_eq_find (tiers : List Tier) (sites : ℕ) (spend volume : ℚ) :
    Credit17.get_required_approver tiers sites spend volume
      = ((tiers.find? (tierMatch sites spend volume)).map Tier.role).getD "Managing Director" := by
  induction tiers with
  | nil => rfl
  | cons t rest ih =>
      by_cases h : sites ≤ t.maxSites ∧ spend ≤ t.maxSpend ∧ volume ≤ t.maxVolume
      · simp [Credit17.get_required_approver, List.find?_cons, tierMatch_eq, h]
      · simp [Credit17.get_required_approver, List.find?_cons, tierMatch_eq, h, ih]

theorem approverIdx_mono (tiers : List Tier) {s s' : ℕ} {v v' w w' : ℚ}
    (hs : s ≤ s') (hv : v ≤ v') (hw : w ≤ w') :
    Credit17.approverIdx tiers s v w ≤ Credit17.approverIdx tiers s' v' w' := by
  induction tiers with
  | nil => exact le_refl 0
  | cons t rest ih =>
      simp only [Credit17.approverIdx]
      by_cases h2 : s' ≤ t.maxSites ∧ v' ≤ t.maxSpend ∧ w' ≤ t.maxVolume
      · have h1 : s ≤ t.maxSites ∧ v ≤ t.maxSpend ∧ w ≤ t.maxVolume :=
          ⟨le_trans hs h2.1, le_trans hv h2.2.1, le_trans hw h2.2.2⟩
        simp [h1, h2]
      · by_cases h1 : s ≤ t.maxSites ∧ v ≤ t.maxSpend ∧ w ≤ t.maxVolume
        · simp only [if_pos h1, if_neg h2]
          exact Nat.zero_le _
        · simp only [if_neg h1, if_neg h2]
          exact Nat.succ_le_succ ih

theorem get_required_approver_eq_idx (tiers : List Tier) (s : ℕ) (v w : ℚ) :
    Credit17.get_required_approver tiers s v w
      = ((tiers[Credit17.approverIdx tiers s v w]?).map Tier.role).getD "Managing Director" := by
  induction tiers with
  | nil => rfl
  | cons t rest ih =>
      simp only [Credit17.get_required_approver, Credit17.approverIdx]
      split_ifs with h
      · simp
      · simpa using ih

namespace Credit4

theorem scorePhase_yu (cfg : Config) (a : App) (h1 : a.creditScore < cfg.referThreshold)
    (h2 : a.creditScore < 30) (h3 : a.smetCompatible = true) :
    scorePhase cfg a = ("Approved with Yu Energy Only",
      ["Credit Score <30: Only Yu Energy permitted due to SMET compatibility"]) := by
  simp [scorePhase, h1, h2, h3]

theorem scorePhase_approved (cfg : Config) (a : App)
    (h1 : cfg.referThreshold ≤ cfg.approveThreshold)
    (h2 : cfg.approveThreshold ≤ a.creditScore) :
    scorePhase cfg a = ("Approved", []) := by
  have hn : ¬ a.creditScore < cfg.referThreshold := by omega
  have hn2 : ¬ (cfg.referThreshold ≤ a.creditScore ∧ a.creditScore < cfg.approveThreshold) := by
    omega
  simp [scorePhase, hn, hn2]

theorem referChecks_fst (cfg : Config) (a : App) (s0 : String × List String) :
    (referChecks cfg a s0).1 = s0.1 ∨ (referChecks cfg a s0).1 = "Refer" := by
  simp only [referChecks]
  split_ifs <;> simp

theorem referChecks_mem (cfg : Config) (a : App) (s0 : String × List String) {x : String}
    (h : x ∈ s0.2) :
    x ∈ (referChecks cfg a s0).2 := by
  simp only [referChecks]
  split_ifs <;> simp [h]

theorem referChecks_id (cfg : Config) (a : App) (s0 : String × List String)
    (h1 : ¬ (a.businessType ≠ "Limited Company" ∧ a.yearsTrading < 1))
    (h2 : ¬ (a.businessType = "Limited Company" ∧ a.yearsTrading < 2))
    (h3 : ¬ (a.paymentTerms ≠ "14 Days DD" ∧ a.paymentTerms ≠ "14 Days BACS"))
    (h4 : ¬ (a.sicRisk = "High" ∨ a.sicRisk = "Very High"))
    (h5 : ¬ a.unitMargin < cfg.minUnitMargin) :
    referChecks cfg a s0 = s0 := by
  simp only [referChecks]
  split_ifs
  all_goals tauto

theorem finalize_recommendation (t : String) (e : ℚ) (p : Bool) (s : String × List String) :
    (finalize t e p s).recommendation = s.1 := by
  simp only [finalize]
  split_ifs <;> rfl

theorem finalize_exposure (t : String) (e : ℚ) (p : Bool) (s : String × List String) :
    (finalize t e p s).exposureEstimate = e ∧ (finalize t e p s).exposurePassed = p := by
  simp only [finalize]
  split_ifs <;> exact ⟨rfl, rfl⟩

theorem finalize_approver_none_iff (t : String) (e : ℚ) (p : Bool) (s : String × List String) :
    (finalize t e p s).approver = none ↔ s.1 = "Declined" := by
  simp only [finalize]
  split_ifs with h1 h2 h3 <;> simp_all

theorem finalize_approver_yu (t : String) (e : ℚ) (p : Bool) (s : String × List String)
    (h : s.1 = "Approved with Yu Energy Only") :
    (finalize t e p s).approver = some "Yu Energy Only" := by
  simp [finalize, h]

theorem finalize_mem (t : String) (e : ℚ) (p : Bool) (s : String × List String) {x : String}
    (h : x ∈ s.2) :
    x ∈ (finalize t e p s).reasons := by
  simp only [finalize]
  split_ifs <;> simp [h]

theorem finalize_plain (t : String) (e : ℚ) (p : Bool) (s : String × List String)
    (h1 : s.1 ≠ "Approved with Yu Energy Only") (h2 : s.1 ≠ "Declined")
    (h3 : t ≠ "Managing Director") :
    finalize t e p s =
      { recommendation := s.1, approver := some t, reasons := s.2,
        exposureEstimate := e, exposurePassed := p } := by
  simp [finalize, h1, h2, h3]

theorem run_decision_eq (matrix : List Tier) (cfg : Config) (a : App) :
    run_decision matrix cfg a =
      finalize
        (Credit17.get_required_approver matrix a.numberOfSites a.contractValue a.annualVolume)
        (a.contractValue / (a.contractTerm : ℚ) / 4)
        (decide (a.contractValue / (a.contractTerm : ℚ) / 4 ≤ a.contractValue))
        (referChecks cfg a (scorePhase cfg a)) := rfl

end Credit4

end Credit

namespace Credit

/-- C1 (counterexample): in `src/Credit17.py`, an application that is not
declined and has credit score 50 gets the low-score referral reason, yet the
verdict stays "Approved" — it is never escalated to "Refer". -/
theorem C1_counterexample :
    (Credit17.run_decision [] exApp17low).decision = "Approved" ∧
    "Referral: Low credit score." ∈ (Credit17.run_decision [] exApp17low).reasons ∧
    (Credit17.run_decision [] exApp17low).decision ≠ "Refer" := by
  refine ⟨?_, ?_, ?_⟩ <;>
    simp [Credit17.run_decision, Credit17.declinePhase, Credit17.referralReasons,
      Credit17.three_month_exposure, Credit17.get_required_approver, exApp17low, zero_div]

/-- C2 (counterexample): in `src/credit4.py`, an application with credit
score 20 and an incompatible meter — a hard-decline condition — ends with
verdict "Refer", because the trading-history referral check overwrites the
"Declined" recommendation. -/
theorem C2_counterexample :
    exApp4decl.creditScore < 30 ∧ exApp4decl.smetCompatible = false ∧
    (Credit4.run_decision [] Credit4.defaultConfig exApp4decl).recommendation = "Refer" ∧
    (Credit4.run_decision [] Credit4.defaultConfig exApp4decl).recommendation ≠ "Declined" := by
  refine ⟨by decide, rfl, ?_, ?_⟩ <;>
    simp [Credit4.run_decision, Credit4.scorePhase, Credit4.referChecks, Credit4.finalize,
      Credit4.defaultConfig, Credit17.get_required_approver, exApp4decl, zero_div,
      show ¬((1 : ℚ) < 2⁻¹) by norm_num]

/-- C4 (counterexample): in `src/credit4.py`, an application with credit
score 20 and a compatible meter (and no decline condition) can still end
with verdict "Refer" — not the restricted-approval variant and not
"Approved" — when a referral check fires after the carve-out. -/
theorem C4_counterexample :
    exApp4yu.creditScore < 30 ∧ exApp4yu.smetCompatible = true ∧
    (Credit4.run_decision [] Credit4.defaultConfig exApp4yu).recommendation = "Refer" ∧
    (Credit4.run_decision [] Credit4.defaultConfig exApp4yu).recommendation ≠ "Approved with Yu Energy Only" ∧
    (Credit4.run_decision [] Credit4.defaultConfig exApp4yu).recommendation ≠ "Approved" := by
  refine ⟨by decide, rfl, ?_, ?_, ?_⟩ <;>
    simp [Credit4.run_decision, Credit4.scorePhase, Credit4.referChecks, Credit4.finalize,
      Credit4.defaultConfig, Credit17.get_required_approver, exApp4yu, zero_div,
      show ¬((1 : ℚ) < 2⁻¹) by norm_num]

/-- C5 (counterexample): in `src/Credit17.py`, the restricted-approval
carve-out path (score 20, compatible meter, nothing declined) resolves its
approver from the tier table — here "Credit Controller" — not from any
named exception-path label. -/
theorem C5_counterexample :
    exApp17yu.creditsafeScore < 30 ∧ exApp17yu.smetCompatible = true ∧
    (Credit17.run_decision exTiers exApp17yu).decision ≠ "Declined" ∧
    (Credit17.run_decision exTiers exApp17yu).approver = some "Credit Controller" ∧
    (Credit17.run_decision exTiers exApp17yu).approver ≠ some "Yu Energy Only" := by
  refine ⟨by decide, rfl, ?_, ?_, ?_⟩ <;>
    simp [Credit17.run_decision, Credit17.declinePhase, Credit17.referralReasons,
      Credit17.three_month_exposure, Credit17.get_required_approver, exApp17yu, exTiers, zero_div]

/-- C7 (counterexample): in `src/credit4.py` with the default thresholds, a
clean application with credit score 70 ≥ 60 is Referred with a non-empty
reason list, not Approved. -/
theorem C7_counterexample :
    60 ≤ exApp4band.creditScore ∧
    (Credit4.run_decision exTiers Credit4.defaultConfig exApp4band).recommendation = "Refer" ∧
    (Credit4.run_decision exTiers Credit4.defaultConfig exApp4band).reasons = ["Credit Score requires referral"] ∧
    (Credit4.run_decision exTiers Credit4.defaultConfig exApp4band).recommendation ≠ "Approved" := by
  refine ⟨by decide, ?_, ?_, ?_⟩ <;>
    simp [Credit4.run_decision, Credit4.scorePhase, Credit4.referChecks, Credit4.finalize,
      Credit4.defaultConfig, Credit17.get_required_approver, exApp4band, exTiers, zero_div,
      show ¬((1 : ℚ) < 2⁻¹) by norm_num]

end Credit

namespace Credit

/-- C1 (amended): in `src/Credit17.py`, when no hard-decline condition
holds, each referral condition that holds appends its reason; the verdict
stays "Approved" (this implementation has no "Refer" verdict). -/
theorem C1_theorem (L : List Tier) (a : Credit17.App) (h : ¬ Credit17.declines a) :
    (Credit17.run_decision L a).decision = "Approved" ∧
    (Credit17.run_decision L a).decision ≠ "Refer" ∧
    (a.creditsafeScore < 60 →
      "Referral: Low credit score." ∈ (Credit17.run_decision L a).reasons) ∧
    (a.sicRisk = "High" ∨ a.sicRisk = "Very High" →
      "Referral: High sector risk." ∈ (Credit17.run_decision L a).reasons) ∧
    (a.paymentTerms ≠ "7 Days Direct Debit" →
      "Referral: Non-standard payment terms." ∈ (Credit17.run_decision L a).reasons) ∧
    (a.unitMargin < 1/2 →
      "Referral: Unit margin below minimum." ∈ (Credit17.run_decision L a).reasons) ∧
    (a.upliftStanding > 5 →
      "Referral: Standing uplift too high." ∈ (Credit17.run_decision L a).reasons) ∧
    (a.upliftUnit > 1 →
      "Referral: Unit rate uplift too high." ∈ (Credit17.run_decision L a).reasons) ∧
    (a.yearsTrading < 1 →
      "Referral: Insufficient trading history." ∈ (Credit17.run_decision L a).reasons) := by
  have hfst : (Credit17.declinePhase a).1 = "Approved" := by
    rw [Credit17.declinePhase_fst, if_neg h]
  have hdec : (Credit17.run_decision L a).decision = "Approved" := by
    rw [Credit17.run_decision_decision, hfst]
  have hres : (Credit17.run_decision L a).reasons
      = (Credit17.declinePhase a).2 ++ Credit17.referralReasons a := by
    rw [Credit17.run_decision_reasons, hfst]
    simp
  refine ⟨hdec, by rw [hdec]; decide, ?_, ?_, ?_, ?_, ?_, ?_, ?_⟩ <;> intro hc <;> rw [hres]
  · exact List.mem_append_right _ (Credit17.mem_referralReasons_lowScore a hc)
  · exact List.mem_append_right _ (Credit17.mem_referralReasons_sector a hc)
  · exact List.mem_append_right _ (Credit17.mem_referralReasons_terms a hc)
  · exact List.mem_append_right _ (Credit17.mem_referralReasons_margin a hc)
  · exact List.mem_append_right _ (Credit17.mem_referralReasons_upliftStanding a hc)
  · exact List.mem_append_right _ (Credit17.mem_referralReasons_upliftUnit a hc)
  · exact List.mem_append_right _ (Credit17.mem_referralReasons_history a hc)

/-- C1 (witness): the amended theorem instantiated at the concrete
application with credit score 50. -/
theorem C1_witness :
    ¬ Credit17.declines exApp17low ∧
    "Referral: Low credit score." ∈ (Credit17.run_decision [] exApp17low).reasons :=
  have h : ¬ Credit17.declines exApp17low := by
    simp [Credit17.declines, Credit17.three_month_exposure, exApp17low, zero_div]
  ⟨h, (C1_theorem [] exApp17low h).2.2.1 (by decide)⟩

/-- C2 (amended): in `src/Credit17.py`, any of the three hard-decline
conditions forces the verdict "Declined", and a decline reason is recorded
for every decline condition met, CCJs/adverse history included. -/
theorem C2_theorem (L : List Tier) (a : Credit17.App) :
    (Credit17.declines a → (Credit17.run_decision L a).decision = "Declined") ∧
    (a.creditsafeScore < 30 ∧ a.smetCompatible = false →
      "Declined: Credit score below 30 and meter not SMET-compatible."
        ∈ (Credit17.run_decision L a).reasons) ∧
    (a.hasCCJs = true →
      "Declined: CCJs/defaults present." ∈ (Credit17.run_decision L a).reasons) ∧
    (Credit17.three_month_exposure a > a.recommendedLimit →
      "Declined: 3-month exposure exceeds recommended limit."
        ∈ (Credit17.run_decision L a).reasons) := by
  refine ⟨fun hd => ?_, fun hc => ?_, fun hc => ?_, fun hc => ?_⟩
  · rw [Credit17.run_decision_decision, Credit17.declinePhase_fst, if_pos hd]
  · rw [Credit17.run_decision_reasons]
    exact List.mem_append_left _ (Credit17.mem_declinePhase_lowScore a hc)
  · rw [Credit17.run_decision_reasons]
    exact List.mem_append_left _ (Credit17.mem_declinePhase_ccj a hc)
  · rw [Credit17.run_decision_reasons]
    exact List.mem_append_left _ (Credit17.mem_declinePhase_exposure a hc)

/-- C2 (witness): the amended theorem instantiated at a concrete
application meeting all three decline conditions at once. -/
theorem C2_witness :
    Credit17.declines exApp17tripleDecl ∧
    (Credit17.run_decision [] exApp17tripleDecl).decision = "Declined" ∧
    "Declined: Credit score below 30 and meter not SMET-compatible."
      ∈ (Credit17.run_decision [] exApp17tripleDecl).reasons ∧
    "Declined: CCJs/defaults present." ∈ (Credit17.run_decision [] exApp17tripleDecl).reasons ∧
    "Declined: 3-month exposure exceeds recommended limit."
      ∈ (Credit17.run_decision [] exApp17tripleDecl).reasons :=
  have hexp : Credit17.three_month_exposure exApp17tripleDecl
      > exApp17tripleDecl.recommendedLimit := by
    norm_num [Credit17.three_month_exposure, exApp17tripleDecl]
  ⟨Or.inr (Or.inl rfl),
   (C2_theorem [] exApp17tripleDecl).1 (Or.inr (Or.inl rfl)),
   (C2_theorem [] exApp17tripleDecl).2.1 (by decide),
   (C2_theorem [] exApp17tripleDecl).2.2.1 rfl,
   (C2_theorem [] exApp17tripleDecl).2.2.2 hexp⟩

/-- C3: the three-month exposure is `contract_value / contract_term / 4` in
both implementations, and in `src/Credit17.py` exceeding the recommended
limit always yields the verdict "Declined". -/
theorem C3_theorem (L : List Tier) (a : Credit17.App)
    (m : List Tier) (cfg : Credit4.Config) (b : Credit4.App) :
    Credit17.three_month_exposure a = a.contractValue / (a.contractTerm : ℚ) / 4 ∧
    (Credit17.three_month_exposure a > a.recommendedLimit →
      (Credit17.run_decision L a).decision = "Declined") ∧
    (Credit4.run_decision m cfg b).exposureEstimate
      = b.contractValue / (b.contractTerm : ℚ) / 4 := by
  refine ⟨rfl, fun hexp => ?_, ?_⟩
  · rw [Credit17.run_decision_decision, Credit17.declinePhase_fst,
      if_pos (show Credit17.declines a from Or.inr (Or.inr hexp))]
  · rw [Credit4.run_decision_eq]
    exact (Credit4.finalize_exposure _ _ _ _).1

/-- C3 (witness): the theorem instantiated at a concrete application with
exposure 2 against recommended limit 1. -/
theorem C3_witness :
    Credit17.three_month_exposure exApp17tripleDecl > exApp17tripleDecl.recommendedLimit ∧
    (Credit17.run_decision [] exApp17tripleDecl).decision = "Declined" :=
  have hexp : Credit17.three_month_exposure exApp17tripleDecl
      > exApp17tripleDecl.recommendedLimit := by
    norm_num [Credit17.three_month_exposure, exApp17tripleDecl]
  ⟨hexp, (C3_theorem [] exApp17tripleDecl [] Credit4.defaultConfig exApp4decl).2.1 hexp⟩

/-- C4 (amended): on the carve-out path both implementations record the
Yu-Energy exception reason and never decline; `src/Credit17.py` gives the
plain "Approved" verdict, while in `src/credit4.py` the restricted verdict
can still be overridden to "Refer" by a later referral check. -/
theorem C4_theorem (L : List Tier) (a : Credit17.App)
    (m : List Tier) (cfg : Credit4.Config) (b : Credit4.App)
    (h1 : a.creditsafeScore < 30) (h2 : a.smetCompatible = true)
    (h3 : a.hasCCJs = false) (h4 : ¬ Credit17.three_month_exposure a > a.recommendedLimit)
    (h5 : b.creditScore < 30) (h6 : b.smetCompatible = true)
    (h7 : b.creditScore < cfg.referThreshold) :
    (Credit17.run_decision L a).decision = "Approved" ∧
    (Credit17.run_decision L a).decision ≠ "Declined" ∧
    "Customer is only eligible with Yu Energy due to SMET compatibility and low score."
      ∈ (Credit17.run_decision L a).reasons ∧
    (Credit4.run_decision m cfg b).recommendation ≠ "Declined" ∧
    "Credit Score <30: Only Yu Energy permitted due to SMET compatibility"
      ∈ (Credit4.run_decision m cfg b).reasons := by
  have hnd : ¬ Credit17.declines a := by
    rintro (⟨hs, hsm⟩ | hc | he)
    · rw [h2] at hsm; cases hsm
    · rw [h3] at hc; cases hc
    · exact h4 he
  have hdec : (Credit17.run_decision L a).decision = "Approved" := by
    rw [Credit17.run_decision_decision, Credit17.declinePhase_fst, if_neg hnd]
  have hyu : "Customer is only eligible with Yu Energy due to SMET compatibility and low score."
      ∈ (Credit17.run_decision L a).reasons := by
    rw [Credit17.run_decision_reasons]
    exact List.mem_append_left _ (Credit17.mem_declinePhase_yu a ⟨h1, h2⟩)
  have hsp : Credit4.scorePhase cfg b
      = ("Approved with Yu Energy Only",
          ["Credit Score <30: Only Yu Energy permitted due to SMET compatibility"]) :=
    Credit4.scorePhase_yu cfg b h7 h5 h6
  have hrec : (Credit4.run_decision m cfg b).recommendation
      = (Credit4.referChecks cfg b (Credit4.scorePhase cfg b)).1 := by
    rw [Credit4.run_decision_eq, Credit4.finalize_recommendation]
  have hne : (Credit4.run_decision m cfg b).recommendation ≠ "Declined" := by
    rcases Credit4.referChecks_fst cfg b (Credit4.scorePhase cfg b) with hfs | hfs
    · have : (Credit4.referChecks cfg b (Credit4.scorePhase cfg b)).1
          = "Approved with Yu Energy Only" := by rw [hfs, hsp]
      rw [hrec, this]; decide
    · rw [hrec, hfs]; decide
  have hmem : "Credit Score <30: Only Yu Energy permitted due to SMET compatibility"
      ∈ (Credit4.run_decision m cfg b).reasons := by
    rw [Credit4.run_decision_eq]
    refine Credit4.finalize_mem _ _ _ _ (Credit4.referChecks_mem cfg b _ ?_)
    rw [hsp]
    simp
  exact ⟨hdec, by rw [hdec]; decide, hyu, hne, hmem⟩

/-- C4 (witness): the amended theorem instantiated at concrete carve-out
applications for both implementations. -/
theorem C4_witness :
    exApp17yu.creditsafeScore < 30 ∧ exApp17yu.smetCompatible = true ∧
    exApp4yu.creditScore < Credit4.defaultConfig.referThreshold ∧
    ((Credit17.run_decision [] exApp17yu).decision = "Approved" ∧
      (Credit4.run_decision [] Credit4.defaultConfig exApp4yu).recommendation ≠ "Declined") :=
  have h4 : ¬ Credit17.three_month_exposure exApp17yu > exApp17yu.recommendedLimit := by
    simp [Credit17.three_month_exposure, exApp17yu, zero_div]
  have T := C4_theorem [] exApp17yu [] Credit4.defaultConfig exApp4yu
    (by decide) rfl rfl h4 (by decide) rfl (by decide)
  ⟨by decide, rfl, by decide, T.1, T.2.2.2.1⟩

end Credit

namespace Credit

theorem finalize_proj_const (t : String) (e : ℚ) (p : Bool) (s : String × List String) :
    ((Credit4.finalize t e p s).recommendation, (Credit4.finalize t e p s).approver,
        (Credit4.finalize t e p s).reasons)
      = ((Credit4.finalize t 0 true s).recommendation, (Credit4.finalize t 0 true s).approver,
          (Credit4.finalize t 0 true s).reasons) := by
  simp only [Credit4.finalize]
  split_ifs <;> rfl

/-- C5 (amended): in both implementations the approver is absent exactly on
the Declined verdict; in `src/credit4.py` the restricted verdict carries
the "Yu Energy Only" approver, while in `src/Credit17.py` every
non-declined application — the carve-out path included — takes its
approver from the tier table. -/
theorem C5_theorem (L m : List Tier) (cfg : Credit4.Config)
    (a : Credit17.App) (b : Credit4.App) :
    ((Credit17.run_decision L a).approver = none ↔
      (Credit17.run_decision L a).decision = "Declined") ∧
    ((Credit17.run_decision L a).decision ≠ "Declined" →
      (Credit17.run_decision L a).approver
        = some (Credit17.get_required_approver L a.numberOfSites a.contractValue a.annualVolume)) ∧
    ((Credit4.run_decision m cfg b).approver = none ↔
      (Credit4.run_decision m cfg b).recommendation = "Declined") ∧
    ((Credit4.run_decision m cfg b).recommendation = "Approved with Yu Energy Only" →
      (Credit4.run_decision m cfg b).approver = some "Yu Energy Only") := by
  refine ⟨?_, fun hnd => ?_, ?_, fun hyu => ?_⟩
  · rw [Credit17.run_decision_approver, Credit17.run_decision_decision]
    by_cases hp : (Credit17.declinePhase a).1 = "Declined" <;> simp [hp]
  · rw [Credit17.run_decision_decision] at hnd
    rw [Credit17.run_decision_approver, if_pos hnd]
  · rw [Credit4.run_decision_eq, Credit4.finalize_approver_none_iff,
      Credit4.finalize_recommendation]
  · rw [Credit4.run_decision_eq] at hyu ⊢
    rw [Credit4.finalize_recommendation] at hyu
    exact Credit4.finalize_approver_yu _ _ _ _ hyu

/-- C5 (witness): the amended theorem instantiated at the referral-only
application, whose approver comes from the tier table. -/
theorem C5_witness :
    (Credit17.run_decision exTiers exApp17low).decision ≠ "Declined" ∧
    (Credit17.run_decision exTiers exApp17low).approver
      = some (Credit17.get_required_approver exTiers exApp17low.numberOfSites
          exApp17low.contractValue exApp17low.annualVolume) :=
  have h : (Credit17.run_decision exTiers exApp17low).decision ≠ "Declined" := by
    simp [Credit17.run_decision, Credit17.declinePhase, Credit17.three_month_exposure,
      exApp17low, zero_div]
  ⟨h, (C5_theorem exTiers [] Credit4.defaultConfig exApp17low exApp4decl).2.1 h⟩

/-- C6: the approver resolver returns the role of the first tier whose
three ceilings all dominate, via `List.find?`, and falls back to
"Managing Director" when no tier matches — in particular on the empty
table. -/
theorem C6_theorem (tiers : List Tier) (sites : ℕ) (spend volume : ℚ) :
    Credit17.get_required_approver tiers sites spend volume
      = ((tiers.find? (tierMatch sites spend volume)).map Tier.role).getD "Managing Director" ∧
    Credit17.get_required_approver [] sites spend volume = "Managing Director" :=
  ⟨get_required_approver_eq_find tiers sites spend volume, rfl⟩

/-- C7 (amended): a clean application is Approved with an empty reason list
— in `src/Credit17.py` for score ≥ 60, but in `src/credit4.py` only for
score at or above the approve threshold (default 80) and an approver that
is not the Managing-Director fallback. -/
theorem C7_theorem (L : List Tier) (a : Credit17.App)
    (m : List Tier) (cfg : Credit4.Config) (b : Credit4.App)
    (ha1 : 60 ≤ a.creditsafeScore) (ha2 : a.hasCCJs = false)
    (ha3 : ¬ Credit17.three_month_exposure a > a.recommendedLimit)
    (ha4 : ¬ (a.sicRisk = "High" ∨ a.sicRisk = "Very High"))
    (ha5 : a.paymentTerms = "7 Days Direct Debit")
    (ha6 : ¬ a.unitMargin < 1/2) (ha7 : ¬ a.upliftStanding > 5) (ha8 : ¬ a.upliftUnit > 1)
    (ha9 : 1 ≤ a.yearsTrading)
    (hb1 : cfg.referThreshold ≤ cfg.approveThreshold)
    (hb2 : cfg.approveThreshold ≤ b.creditScore)
    (hb3 : ¬ (b.businessType ≠ "Limited Company" ∧ b.yearsTrading < 1))
    (hb4 : ¬ (b.businessType = "Limited Company" ∧ b.yearsTrading < 2))
    (hb5 : ¬ (b.paymentTerms ≠ "14 Days DD" ∧ b.paymentTerms ≠ "14 Days BACS"))
    (hb6 : ¬ (b.sicRisk = "High" ∨ b.sicRisk = "Very High"))
    (hb7 : ¬ b.unitMargin < cfg.minUnitMargin)
    (hb8 : Credit17.get_required_approver m b.numberOfSites b.contractValue b.annualVolume
      ≠ "Managing Director") :
    (Credit17.run_decision L a).decision = "Approved" ∧
    (Credit17.run_decision L a).reasons = [] ∧
    (Credit4.run_decision m cfg b).recommendation = "Approved" ∧
    (Credit4.run_decision m cfg b).reasons = [] := by
  have hnd : ¬ Credit17.declines a := by
    rintro (⟨hs, hsm⟩ | hc | he)
    · omega
    · rw [ha2] at hc; cases hc
    · exact ha3 he
  have hfst : (Credit17.declinePhase a).1 = "Approved" := by
    rw [Credit17.declinePhase_fst, if_neg hnd]
  have hrs : (Credit17.run_decision L a).reasons = [] := by
    rw [Credit17.run_decision_reasons, hfst]
    rw [Credit17.declinePhase_snd_nodecline a hnd, if_neg (by omega :
      ¬ (a.creditsafeScore < 30 ∧ a.smetCompatible = true))]
    rw [Credit17.referralReasons_empty a (by omega) ha4 ha5 ha6 ha7 ha8 (by omega)]
    simp
  have hs4 : Credit4.referChecks cfg b (Credit4.scorePhase cfg b) = ("Approved", []) := by
    rw [Credit4.referChecks_id cfg b _ hb3 hb4 hb5 hb6 hb7,
      Credit4.scorePhase_approved cfg b hb1 hb2]
  refine ⟨by rw [Credit17.run_decision_decision, hfst], hrs, ?_, ?_⟩
  · rw [Credit4.run_decision_eq, hs4,
      Credit4.finalize_plain _ _ _ _ (by decide) (by decide) hb8]
  · rw [Credit4.run_decision_eq, hs4,
      Credit4.finalize_plain _ _ _ _ (by decide) (by decide) hb8]

/-- C7 (witness): the amended theorem instantiated at the specification's
worked example (score 85, £10,000 over 2 years, 50,000 kWh, one site). -/
theorem C7_witness :
    60 ≤ exApp17clean.creditsafeScore ∧
    Credit4.defaultConfig.approveThreshold ≤ exApp4clean.creditScore ∧
    ((Credit17.run_decision exTiersBig exApp17clean).decision = "Approved" ∧
      (Credit17.run_decision exTiersBig exApp17clean).reasons = [] ∧
      (Credit4.run_decision exTiersBig Credit4.defaultConfig exApp4clean).recommendation = "Approved" ∧
      (Credit4.run_decision exTiersBig Credit4.defaultConfig exApp4clean).reasons = []) :=
  have ha3 : ¬ Credit17.three_month_exposure exApp17clean > exApp17clean.recommendedLimit := by
    norm_num [Credit17.three_month_exposure, exApp17clean]
  have hb8 : Credit17.get_required_approver exTiersBig exApp4clean.numberOfSites
      exApp4clean.contractValue exApp4clean.annualVolume ≠ "Managing Director" := by
    have hcc : Credit17.get_required_approver exTiersBig exApp4clean.numberOfSites
        exApp4clean.contractValue exApp4clean.annualVolume = "Credit Controller" := by
      norm_num [Credit17.get_required_approver, exTiersBig, exApp4clean]
    rw [hcc]
    decide
  ⟨by decide, by decide,
    C7_theorem exTiersBig exApp17clean exTiersBig Credit4.defaultConfig exApp4clean
      (by decide) rfl ha3 (by decide) rfl (by norm_num [exApp17clean])
      (by norm_num [exApp17clean]) (by norm_num [exApp17clean]) (by decide)
      (by decide) (by decide) (by decide) (by decide) (by decide) (by decide)
      (by norm_num [exApp4clean, Credit4.defaultConfig]) hb8⟩

/-- C8: the approver lookup is monotone — raising sites, spend or volume
never lowers the index of the first matching tier (the fallback counting as
most senior) — and the resolved role is exactly the role at that index. -/
theorem C8_theorem (tiers : List Tier) (s s' : ℕ) (v v' w w' : ℚ)
    (hs : s ≤ s') (hv : v ≤ v') (hw : w ≤ w') :
    Credit17.approverIdx tiers s v w ≤ Credit17.approverIdx tiers s' v' w' ∧
    Credit17.get_required_approver tiers s v w
      = ((tiers[Credit17.approverIdx tiers s v w]?).map Tier.role).getD "Managing Director" :=
  ⟨approverIdx_mono tiers hs hv hw, get_required_approver_eq_idx tiers s v w⟩

/-- C8 (witness): the monotonicity theorem instantiated on a two-tier table
with growing sites, spend and volume. -/
theorem C8_witness :
    Credit17.approverIdx exTiersTwo 1 50 500 ≤ Credit17.approverIdx exTiersTwo 3 5000 50000 ∧
    Credit17.get_required_approver exTiersTwo 1 50 500
      = ((exTiersTwo[Credit17.approverIdx exTiersTwo 1 50 500]?).map Tier.role).getD
          "Managing Director" :=
  C8_theorem exTiersTwo 1 3 50 5000 500 50000 (by decide) (by norm_num) (by norm_num)

/-- C9: both decision engines are pure functions of the application record
and the reference tables — identical inputs give identical verdict,
approver and reason list (the embedding carries no timestamp). -/
theorem C9_theorem (L L' : List Tier) (a a' : Credit17.App) (m m' : List Tier)
    (cfg cfg' : Credit4.Config) (b b' : Credit4.App)
    (hL : L = L') (ha : a = a') (hm : m = m') (hcfg : cfg = cfg') (hb : b = b') :
    Credit17.run_decision L a = Credit17.run_decision L' a' ∧
    Credit4.run_decision m cfg b = Credit4.run_decision m' cfg' b' := by
  subst hL ha hm hcfg hb
  exact ⟨rfl, rfl⟩

/-- C9 (witness): determinism instantiated at concrete inputs. -/
theorem C9_witness :
    Credit17.run_decision exTiers exApp17low = Credit17.run_decision exTiers exApp17low ∧
    Credit4.run_decision exTiers Credit4.defaultConfig exApp4band
      = Credit4.run_decision exTiers Credit4.defaultConfig exApp4band :=
  C9_theorem exTiers exTiers exApp17low exApp17low exTiers exTiers
    Credit4.defaultConfig Credit4.defaultConfig exApp4band exApp4band rfl rfl rfl rfl rfl

/-- C10: in `src/credit4.py`, for any non-negative contract value and
positive term the exposure test always passes (the estimate is compared
against the contract value itself), and verdict, approver and reasons are
computed without the exposure values. -/
theorem C10_theorem (m : List Tier) (cfg : Credit4.Config) (b : Credit4.App)
    (h1 : 0 ≤ b.contractValue) (h2 : 1 ≤ b.contractTerm) :
    (Credit4.run_decision m cfg b).exposurePassed = true ∧
    (Credit4.run_decision m cfg b).exposureEstimate
      = b.contractValue / (b.contractTerm : ℚ) / 4 ∧
    ((Credit4.run_decision m cfg b).recommendation, (Credit4.run_decision m cfg b).approver,
        (Credit4.run_decision m cfg b).reasons) = Credit4.decision_core m cfg b := by
  have hle : b.contractValue / (b.contractTerm : ℚ) / 4 ≤ b.contractValue := by
    rw [div_div]
    refine div_le_self h1 ?_
    have h2' : (1 : ℚ) ≤ (b.contractTerm : ℚ) := by exact_mod_cast h2
    linarith
  refine ⟨?_, ?_, ?_⟩
  · rw [Credit4.run_decision_eq, (Credit4.finalize_exposure _ _ _ _).2]
    exact decide_eq_true hle
  · rw [Credit4.run_decision_eq]
    exact (Credit4.finalize_exposure _ _ _ _).1
  · rw [Credit4.run_decision_eq]
    exact (finalize_proj_const _ _ _ _).trans rfl

/-- C10 (witness): the theorem instantiated at the worked example (value
10000, term 2 years). -/
theorem C10_witness :
    (0 : ℚ) ≤ exApp4clean.contractValue ∧ 1 ≤ exApp4clean.contractTerm ∧
    (Credit4.run_decision exTiersBig Credit4.defaultConfig exApp4clean).exposurePassed = true :=
  ⟨by norm_num [exApp4clean], by decide,
    (C10_theorem exTiersBig Credit4.defaultConfig exApp4clean
      (by norm_num [exApp4clean]) (by decide)).1⟩

end Credit
